import Mathlib

/-!
Shallow embedding of the 99acresClone Express/Mongoose backend
(property routes, admin routes, user favorites routes, Property schema)
and proofs of the specification claims about it.

Ids (Mongo ObjectIds) are modelled as `Nat`; timestamps as `Nat`;
JS numbers appearing as prices/areas as `Int`; query/body parameters
that may be absent as `Option _` (express-validator/mongoose numeric
coercion of textual parameters is modelled by the parameter already
being numeric when present).
-/

/-- Case-insensitive character list test helper: the first list begins
the second. -/
def startsWithChars : List Char → List Char → Bool
  | [], _ => true
  | _ :: _, [] => false
  | a :: as, b :: bs => a == b && startsWithChars as bs

/-- Substring test on character lists. -/
def containsChars (needle : List Char) : List Char → Bool
  | [] => startsWithChars needle []
  | b :: bs => startsWithChars needle (b :: bs) || containsChars needle bs

/-- Model of `new RegExp(pat, 'i').test(s)` for a metacharacter-free
pattern `pat`: case-insensitive substring containment. -/
def regexTestCI (pat s : String) : Bool :=
  containsChars (pat.toList.map Char.toLower) (s.toList.map Char.toLower)

/-- Model of JS `String.prototype.trim` (and of the express-validator
`.trim()` sanitizer). -/
def trimChars (l : List Char) : List Char :=
  ((l.dropWhile Char.isWhitespace).reverse.dropWhile Char.isWhitespace).reverse

/-- Trim a string, as `.trim()` does. -/
def jsTrim (s : String) : String := String.mk (trimChars s.toList)

/-- Model of JS `s.split(',')` (the `amenities.split(',')` call of the
filter builder). -/
def splitCommaAux : List Char → List Char → List String
  | [], acc => [String.mk acc.reverse]
  | c :: cs, acc =>
    if c == ',' then String.mk acc.reverse :: splitCommaAux cs []
    else splitCommaAux cs (c :: acc)

/-- Split a string at commas. -/
def splitComma (s : String) : List String := splitCommaAux s.toList []

/-- An inquiry subdocument of `propertySchema.inquiries`
(src/unnamed/part_001 lines 146-156). -/
structure Inquiry where
  user : Nat
  message : String
  createdAt : Nat
deriving Repr, DecidableEq

/-- The `location` subdocument of `propertySchema`
(src/unnamed/part_001 lines 71-99); coordinates are not relevant to any
verified route and are omitted. -/
structure Location where
  address : String
  city : String
  state : String
  pincode : String
deriving Repr, DecidableEq

/-- A `Property` document (src/unnamed/part_001): the fields the verified
routes read or write. -/
structure Property where
  id : Nat
  title : String
  description : String
  propertyType : String
  listingType : String
  price : Int
  areaValue : Int
  location : Location
  bedrooms : Option Nat
  bathrooms : Option Nat
  amenities : List String
  owner : Nat
  status : String
  featured : Bool
  views : Nat
  inquiries : List Inquiry
  createdAt : Nat
deriving Repr, DecidableEq

/-- The authenticated actor (`req.user` as set by the `protect` middleware). -/
structure Actor where
  id : Nat
  role : String
deriving Repr, DecidableEq

/-- The recognized structured filter parameters of `GET /properties`
(src/unnamed/part_000 lines 293-306); each is absent or present.
`amenities` is the raw comma-separated text parameter. -/
structure FilterQuery where
  propertyType : Option String
  listingType : Option String
  city : Option String
  state : Option String
  bedrooms : Option Nat
  bathrooms : Option Nat
  amenities : Option String
  minPrice : Option Int
  maxPrice : Option Int
deriving Repr, DecidableEq

/-- A constraint contributed by one optional parameter: an absent
parameter imposes none (the `if (param) query.field = ...` pattern of the
query builder). -/
def optCheck {α : Type} (o : Option α) (f : α → Bool) : Bool :=
  match o with
  | none => true
  | some v => f v

/-- The filter predicate built by `GET /properties`
(src/unnamed/part_000 lines 309-322) as the document test the resulting
Mongo query object performs: conjunction of the constraints of the
present parameters. `city`/`state` are case-insensitive regex tests,
`amenities` is `$in` over the comma-split list, `minPrice`/`maxPrice`
are `$gte`/`$lte` on price. -/
def matchesFilter (q : FilterQuery) (p : Property) : Bool :=
  optCheck q.propertyType (fun t => p.propertyType == t) &&
  optCheck q.listingType (fun t => p.listingType == t) &&
  optCheck q.city (fun c => regexTestCI c p.location.city) &&
  optCheck q.state (fun s => regexTestCI s p.location.state) &&
  optCheck q.bedrooms (fun n => p.bedrooms == some n) &&
  optCheck q.bathrooms (fun n => p.bathrooms == some n) &&
  optCheck q.amenities (fun a => (splitComma a).any (fun x => p.amenities.contains x)) &&
  optCheck q.minPrice (fun m => decide (m ≤ p.price)) &&
  optCheck q.maxPrice (fun m => decide (p.price ≤ m))

/-- The nine recognized filter parameters, as positions that can be
omitted from a request. -/
inductive FilterParam where
  | propertyType | listingType | city | state
  | bedrooms | bathrooms | amenities | minPrice | maxPrice
deriving Repr, DecidableEq

/-- Remove one parameter from a filter request (the request without it). -/
def removeParam : FilterParam → FilterQuery → FilterQuery
  | .propertyType, q => { q with propertyType := none }
  | .listingType, q => { q with listingType := none }
  | .city, q => { q with city := none }
  | .state, q => { q with state := none }
  | .bedrooms, q => { q with bedrooms := none }
  | .bathrooms, q => { q with bathrooms := none }
  | .amenities, q => { q with amenities := none }
  | .minPrice, q => { q with minPrice := none }
  | .maxPrice, q => { q with maxPrice := none }

/-- The request with every recognized filter parameter absent. -/
def emptyFilterQuery : FilterQuery :=
  { propertyType := none, listingType := none, city := none, state := none,
    bedrooms := none, bathrooms := none, amenities := none,
    minPrice := none, maxPrice := none }

/-- A property request body (`req.body` of `POST /properties` and
`PUT /properties/:id`): the fields the verified claims concern, each
absent or present. A `price`/`areaValue` of `none` also covers a
non-numeric value (both fail the `isNumeric` validator). -/
structure Body where
  title : Option String
  description : Option String
  propertyType : Option String
  listingType : Option String
  price : Option Int
  areaValue : Option Int
  address : Option String
  city : Option String
  state : Option String
  pincode : Option String
  owner : Option Nat
  status : Option String
deriving Repr, DecidableEq

/-- Validator `notEmpty()` after the `.trim()` sanitizer: the field is present and
not blank. -/
def reqStr (o : Option String) : Bool :=
  match o with
  | none => false
  | some s => jsTrim s != ""

/-- Validator `isIn(values)`: the field is present and one of the allowed values. -/
def isInOpt (o : Option String) (values : List String) : Bool :=
  match o with
  | none => false
  | some s => values.contains s

/-- The `propertyType` enum of the schema and of `propertyValidation`. -/
def propertyTypeEnum : List String :=
  ["Apartment", "House", "Villa", "Plot", "Commercial", "Farmhouse"]

/-- The `listingType` enum. -/
def listingTypeEnum : List String := ["Sale", "Rent"]

/-- The `status` enum of `propertySchema.status`
(src/unnamed/part_001 lines 133-137). -/
def statusEnum : List String := ["active", "pending", "sold", "rented"]

/-- The `propertyValidation` middleware chain
(src/unnamed/part_000 lines 251-262): the list of validation error
messages for a body. -/
def propertyValidation (b : Body) : List String :=
  (if reqStr b.title then [] else ["Title is required"]) ++
  (if reqStr b.description then [] else ["Description is required"]) ++
  (if isInOpt b.propertyType propertyTypeEnum then [] else ["Invalid property type"]) ++
  (if isInOpt b.listingType listingTypeEnum then [] else ["Invalid listing type"]) ++
  (if b.price.isSome then [] else ["Price must be a number"]) ++
  (if b.areaValue.isSome then [] else ["Area value must be a number"]) ++
  (if reqStr b.address then [] else ["Address is required"]) ++
  (if reqStr b.city then [] else ["City is required"]) ++
  (if reqStr b.state then [] else ["State is required"]) ++
  (if reqStr b.pincode then [] else ["Pincode is required"])

/-- The document built by `Property.create({...req.body, owner: req.user.id})`
(src/unnamed/part_000 lines 272-275): every body field is spread into the
document, then `owner` is overwritten with the authenticated user's id;
schema defaults fill the rest. Returns `none` when mongoose schema
validation rejects the document (a supplied `status` outside the enum),
which the handler surfaces as a 500. Trimmed string fields reflect the
`.trim()` sanitizers having rewritten `req.body`. -/
def buildCreatedDoc (actor : Actor) (newId : Nat) (b : Body) (now : Nat) : Option Property :=
  let status := b.status.getD "pending"
  if statusEnum.contains status then
    some
      { id := newId,
        title := jsTrim (b.title.getD ""),
        description := jsTrim (b.description.getD ""),
        propertyType := b.propertyType.getD "",
        listingType := b.listingType.getD "",
        price := b.price.getD 0,
        areaValue := b.areaValue.getD 0,
        location :=
          { address := jsTrim (b.address.getD ""),
            city := jsTrim (b.city.getD ""),
            state := jsTrim (b.state.getD ""),
            pincode := jsTrim (b.pincode.getD "") },
        bedrooms := none, bathrooms := none, amenities := [],
        owner := actor.id,
        status := status,
        featured := false, views := 0, inquiries := [], createdAt := now }
  else none

/-- Handler `POST /properties` (src/unnamed/part_000 lines 265-288): validation
errors give 400; a schema-invalid document gives 500; otherwise the
created document is returned with 201. -/
def createProperty (actor : Actor) (newId : Nat) (b : Body) (now : Nat) :
    Nat × Option Property :=
  if propertyValidation b = [] then
    match buildCreatedDoc actor newId b now with
    | some doc => (201, some doc)
    | none => (500, none)
  else (400, none)

/-- The `findByIdAndUpdate(id, req.body, ...)` call of `PUT /properties/:id`
(src/unnamed/part_000 lines 408-412): every present body field is written
over the stored document (`owner` and `status` included). -/
def applyBody (b : Body) (p : Property) : Property :=
  { p with
    title := (b.title.map jsTrim).getD p.title,
    description := (b.description.map jsTrim).getD p.description,
    propertyType := b.propertyType.getD p.propertyType,
    listingType := b.listingType.getD p.listingType,
    price := b.price.getD p.price,
    areaValue := b.areaValue.getD p.areaValue,
    location :=
      { address := (b.address.map jsTrim).getD p.location.address,
        city := (b.city.map jsTrim).getD p.location.city,
        state := (b.state.map jsTrim).getD p.location.state,
        pincode := (b.pincode.map jsTrim).getD p.location.pincode },
    owner := b.owner.getD p.owner,
    status := b.status.getD p.status }

/-- The ownership guard of `PUT /properties/:id`
(src/unnamed/part_000 line 401): blocks when the actor is neither the
recorded owner nor an admin. -/
def updateOwnershipBlocks (actor : Actor) (p : Property) : Bool :=
  p.owner != actor.id && actor.role != "admin"

/-- The ownership guard of `DELETE /properties/:id`
(src/unnamed/part_000 line 440). -/
def deleteOwnershipBlocks (actor : Actor) (p : Property) : Bool :=
  p.owner != actor.id && actor.role != "admin"

/-- The authorization predicate as the spec words it:
`canMutate(actor, property) = actor.id == property.owner.id OR actor.role == admin`. -/
def specCanMutate (actor : Actor) (p : Property) : Bool :=
  actor.id == p.owner || actor.role == "admin"

/-- Handler `PUT /properties/:id` (src/unnamed/part_000 lines 384-425) over a
stored collection `db`: validation errors give 400; a missing id gives
404; a blocked actor gives 403; `runValidators` rejects a body `status`
outside the enum with an error the handler surfaces as 500; otherwise the
body is applied to the stored document and 200 returned. -/
def putProperty (db : List Property) (actor : Actor) (pid : Nat) (b : Body) :
    Nat × List Property :=
  if propertyValidation b = [] then
    match db.find? (fun p => p.id == pid) with
    | none => (404, db)
    | some p =>
      if updateOwnershipBlocks actor p then (403, db)
      else if b.status.all (fun s => statusEnum.contains s) then
        (200, db.map (fun q => if q.id == pid then applyBody b q else q))
      else (500, db)
  else (400, db)

/-- Handler `DELETE /properties/:id` (src/unnamed/part_000 lines 428-460):
a missing id gives 404; a blocked actor gives 403; otherwise the document
is removed and 200 returned. -/
def deleteProperty (db : List Property) (actor : Actor) (pid : Nat) :
    Nat × List Property :=
  match db.find? (fun p => p.id == pid) with
  | none => (404, db)
  | some p =>
    if deleteOwnershipBlocks actor p then (403, db)
    else (200, db.filter (fun q => q.id != pid))

/-- JS `Math.ceil` on an exact rational value (JS float arithmetic is exact
on the integer operands these routes divide). -/
def mathCeil (q : ℚ) : ℤ := ⌈q⌉

/-- The `pagination` object of a listing response. -/
structure PaginationOut where
  total : Nat
  page : Nat
  pages : Nat
deriving Repr, DecidableEq

/-- The pagination object built by `GET /properties`
(src/unnamed/part_000 lines 334-341): `page`/`limit` default to 1/10 when
absent and are numeric after coercion; `pages` is
`Math.ceil(total / limit)`. -/
def propertiesPagination (total : Nat) (pageQ limitQ : Option Nat) : PaginationOut :=
  let limit := limitQ.getD 10
  let page := pageQ.getD 1
  { total := total, page := page,
    pages := (mathCeil ((total : ℚ) / (limit : ℚ))).toNat }

/-- The pagination object built by `GET /admin/users`
(src/unnamed/part_000 lines 26-33), with the same defaults and formula. -/
def adminUsersPagination (total : Nat) (pageQ limitQ : Option Nat) : PaginationOut :=
  let limit := limitQ.getD 10
  let page := pageQ.getD 1
  { total := total, page := page,
    pages := (mathCeil ((total : ℚ) / (limit : ℚ))).toNat }

/-- The `$unwind: '$inquiries'` stage used by the dashboard and activity
aggregations (src/unnamed/part_000 lines 163-166 and 202-205): one
document per (property, inquiry) pair, properties without inquiries
dropped. -/
def unwindInquiries (props : List Property) : List (Property × Inquiry) :=
  props.flatMap (fun p => p.inquiries.map (fun i => (p, i)))

/-- The `$group: { _id: null, count: { $sum: 1 } }` stage over the unwound
inquiries: an empty input produces no group at all, a nonempty one a
single group carrying the document count. -/
def totalInquiriesAggregate (props : List Property) : List Nat :=
  let docs := unwindInquiries props
  if docs.length = 0 then [] else [docs.length]

/-- The dashboard's `totalInquiries: totalInquiries[0]?.count || 0`
(src/unnamed/part_000 line 177). -/
def dashboardTotalInquiries (props : List Property) : Nat :=
  (totalInquiriesAggregate props).headD 0

/-- The slice of a `User` document the favorites routes touch. -/
structure UserDoc where
  id : Nat
  favorites : List Nat
deriving Repr, DecidableEq

/-- Handler `POST /users/favorites/:propertyId`
(src/server/routes/user.routes.js lines 104-139): 404 when the property
does not exist, 400 when it is already a favorite, otherwise it is pushed
and 200 returned. -/
def addFavorite (props : List Property) (u : UserDoc) (pid : Nat) : Nat × UserDoc :=
  match props.find? (fun p => p.id == pid) with
  | none => (404, u)
  | some _ =>
    if u.favorites.contains pid then (400, u)
    else (200, { u with favorites := u.favorites ++ [pid] })

/-- Handler `DELETE /users/favorites/:propertyId`
(src/server/routes/user.routes.js lines 142-172): 400 when the property
is not a favorite, otherwise it is filtered out and 200 returned. -/
def removeFavorite (u : UserDoc) (pid : Nat) : Nat × UserDoc :=
  if u.favorites.contains pid then
    (200, { u with favorites := u.favorites.filter (fun i => i != pid) })
  else (400, u)

/-- The slice of a `User` document the activities aggregation reads. -/
structure UserRec where
  id : Nat
  name : String
  email : String
deriving Repr, DecidableEq

/-- One entry of the `recentInquiries` activity feed after its
`$project` stage. -/
structure InquiryActivity where
  propertyId : Nat
  title : String
  message : String
  createdAt : Nat
  userName : String
  userEmail : String
deriving Repr, DecidableEq

/-- Insertion step of the `$sort: { 'inquiries.createdAt': -1 }` stage. -/
def insertByCreatedAtDesc (x : Property × Inquiry) :
    List (Property × Inquiry) → List (Property × Inquiry)
  | [] => [x]
  | y :: ys =>
    if y.2.createdAt ≤ x.2.createdAt then x :: y :: ys
    else y :: insertByCreatedAtDesc x ys

/-- Sort the unwound inquiries by `inquiries.createdAt` descending. -/
def sortByCreatedAtDesc : List (Property × Inquiry) → List (Property × Inquiry)
  | [] => []
  | x :: xs => insertByCreatedAtDesc x (sortByCreatedAtDesc xs)

/-- The `$lookup` + `$unwind: '$user'` + `$project` tail of the
`recentInquiries` aggregation (src/unnamed/part_000 lines 206-225):
an unwound inquiry whose user id resolves against the users collection
becomes a projected entry, an unresolvable one yields no document
(the `$unwind` of an empty lookup array drops it). -/
def joinInquiryUser (users : List UserRec) (pe : Property × Inquiry) :
    Option InquiryActivity :=
  match users.find? (fun u => u.id == pe.2.user) with
  | none => none
  | some u =>
    some { propertyId := pe.1.id, title := pe.1.title, message := pe.2.message,
           createdAt := pe.2.createdAt, userName := u.name, userEmail := u.email }

/-- The full `recentInquiries` pipeline of `GET /admin/activities`
(src/unnamed/part_000 lines 202-225): unwind, sort by inquiry timestamp
descending, take the top 5, then join each to its submitting user. -/
def recentInquiries (users : List UserRec) (props : List Property) :
    List InquiryActivity :=
  ((sortByCreatedAtDesc (unwindInquiries props)).take 5).filterMap (joinInquiryUser users)

/-- A stored property owned by user 1. -/
def c1Stored : Property :=
  { id := 1, title := "Flat", description := "Nice", propertyType := "Apartment",
    listingType := "Sale", price := 100, areaValue := 50,
    location := { address := "MG Road", city := "Pune", state := "MH", pincode := "411001" },
    bedrooms := none, bathrooms := none, amenities := [], owner := 1,
    status := "pending", featured := false, views := 0, inquiries := [], createdAt := 0 }

/-- A fully valid update body that also carries `owner: 2`. -/
def c1Body : Body :=
  { title := some "Flat", description := some "Nice", propertyType := some "Apartment",
    listingType := some "Sale", price := some 100, areaValue := some 50,
    address := some "MG Road", city := some "Pune", state := some "MH",
    pincode := some "411001", owner := some 2, status := none }

/-- A fully valid creation body supplying neither `owner` nor `status`. -/
def validBody : Body :=
  { title := some "Flat", description := some "Nice", propertyType := some "Apartment",
    listingType := some "Sale", price := some 100, areaValue := some 50,
    address := some "MG Road", city := some "Pune", state := some "MH",
    pincode := some "411001", owner := none, status := none }

/-- The document `POST /properties` stores for `validBody` sent by user 5. -/
def c2Doc : Property :=
  { id := 1, title := "Flat", description := "Nice", propertyType := "Apartment",
    listingType := "Sale", price := 100, areaValue := 50,
    location := { address := "MG Road", city := "Pune", state := "MH", pincode := "411001" },
    bedrooms := none, bathrooms := none, amenities := [], owner := 5,
    status := "pending", featured := false, views := 0, inquiries := [], createdAt := 0 }

/-- A valid creation body that additionally supplies `status: "active"`. -/
def c8Body : Body :=
  { title := some "Flat", description := some "Nice", propertyType := some "Apartment",
    listingType := some "Sale", price := some 100, areaValue := some 50,
    address := some "MG Road", city := some "Pune", state := some "MH",
    pincode := some "411001", owner := none, status := some "active" }

/-- A body omits one of the fields required at creation. -/
def missingRequiredField (b : Body) : Prop :=
  b.title = none ∨ b.description = none ∨ b.propertyType = none ∨ b.listingType = none ∨
  b.price = none ∨ b.areaValue = none ∨ b.address = none ∨ b.city = none ∨
  b.state = none ∨ b.pincode = none

/-- Two registered users for the activities example. -/
def c10Users : List UserRec :=
  [{ id := 1, name := "Alice", email := "alice@example.com" },
   { id := 2, name := "Bob", email := "bob@example.com" }]

/-- A property carrying six inquiries; the newest one (timestamp 60) was
submitted by the nonexistent user 99, the other five by users 1 and 2. -/
def c10Props : List Property :=
  [{ id := 1, title := "Flat", description := "Nice", propertyType := "Apartment",
     listingType := "Sale", price := 100, areaValue := 50,
     location := { address := "MG Road", city := "Pune", state := "MH", pincode := "411001" },
     bedrooms := none, bathrooms := none, amenities := [], owner := 1,
     status := "active", featured := false, views := 0,
     inquiries :=
       [{ user := 1, message := "m10", createdAt := 10 },
        { user := 2, message := "m20", createdAt := 20 },
        { user := 1, message := "m30", createdAt := 30 },
        { user := 2, message := "m40", createdAt := 40 },
        { user := 1, message := "m50", createdAt := 50 },
        { user := 99, message := "m60", createdAt := 60 }],
     createdAt := 0 }]

/-- The feed entry for the timestamp-50 inquiry of the example. -/
def c10Entry : InquiryActivity :=
  { propertyId := 1, title := "Flat", message := "m50", createdAt := 50,
    userName := "Alice", userEmail := "alice@example.com" }

lemma matchesFilter_removeParam (fp : FilterParam) (q : FilterQuery) (p : Property)
    (h : matchesFilter q p = true) : matchesFilter (removeParam fp q) p = true := by
  cases fp <;>
    simp only [matchesFilter, removeParam, optCheck, Bool.and_eq_true] at h ⊢ <;>
    tauto

lemma matchesFilter_empty (p : Property) : matchesFilter emptyFilterQuery p = true := by
  simp [matchesFilter, emptyFilterQuery, optCheck]

/-- Claim C4: the property listing filter is monotone in parameter omission:
for a fixed collection, removing any one of the nine recognized parameters
from the request yields a matching set that contains the matching set with
the parameter present, and the empty request matches everything (absent
parameters impose no constraint). -/
theorem filter_monotone_in_omission
    (fp : FilterParam) (q : FilterQuery) (props : List Property) (p : Property)
    (h : p ∈ props.filter (matchesFilter q)) :
    p ∈ props.filter (matchesFilter (removeParam fp q)) ∧
    props.filter (matchesFilter emptyFilterQuery) = props := by
  constructor
  · rw [List.mem_filter] at h ⊢
    exact ⟨h.1, matchesFilter_removeParam fp q p h.2⟩
  · apply List.filter_eq_self.mpr
    intro a _
    exact matchesFilter_empty a

/-- Witness for C4: a concrete property matching a city+minPrice filter still
matches after dropping the minPrice parameter. -/
theorem filter_monotone_in_omission_witness :
    let p : Property :=
      { id := 1, title := "Flat", description := "Nice", propertyType := "Apartment",
        listingType := "Sale", price := 1500000, areaValue := 900,
        location := { address := "MG Road", city := "Pune", state := "MH", pincode := "411001" },
        bedrooms := some 2, bathrooms := some 1, amenities := ["Gym"],
        owner := 1, status := "active", featured := false, views := 0,
        inquiries := [], createdAt := 0 }
    let q : FilterQuery := { emptyFilterQuery with city := some "pune", minPrice := some 1000000 }
    p ∈ ([p].filter (matchesFilter (removeParam .minPrice q))) := by
  intro p q
  exact (filter_monotone_in_omission .minPrice q [p] p (by decide)).1

lemma natCeil_natCast_div (n d : ℕ) (hd : 0 < d) :
    ⌈(n : ℚ) / (d : ℚ)⌉₊ = (n + d - 1) / d := by
  have hdq : (0 : ℚ) < (d : ℚ) := by exact_mod_cast hd
  apply le_antisymm
  · rw [Nat.ceil_le, div_le_iff₀ hdq]
    have key : n ≤ ((n + d - 1) / d) * d := by
      have h1 := Nat.div_add_mod (n + d - 1) d
      have h2 := Nat.mod_lt (n + d - 1) hd
      rw [Nat.mul_comm]
      set M := d * ((n + d - 1) / d) with hM
      omega
    exact_mod_cast key
  · rw [Nat.div_le_iff_le_mul_add_pred hd]
    have key : (n : ℚ) ≤ (⌈(n : ℚ) / (d : ℚ)⌉₊ : ℚ) * d := by
      have := Nat.le_ceil ((n : ℚ) / (d : ℚ))
      calc (n : ℚ) = (n : ℚ) / d * d := by field_simp
        _ ≤ (⌈(n : ℚ) / (d : ℚ)⌉₊ : ℚ) * d :=
            mul_le_mul_of_nonneg_right this (le_of_lt hdq)
    have key2 : n ≤ ⌈(n : ℚ) / (d : ℚ)⌉₊ * d := by exact_mod_cast key
    set M := ⌈(n : ℚ) / (d : ℚ)⌉₊ with hM
    have : d * M = M * d := Nat.mul_comm d M
    omega

/-- Claim C5: for every paginated listing request, with `limit` defaulting
to 10 and `page` to 1 when absent, the reported `pages` equals
`ceil(total / limit)` (also given in closed Nat form), which is 0 when
`total = 0`; the admin users route computes the same pagination object. -/
theorem pagination_pages_eq_ceil (total : Nat) (pageQ limitQ : Option Nat)
    (h : 0 < limitQ.getD 10) :
    (propertiesPagination total pageQ limitQ).pages
        = ⌈(total : ℚ) / (limitQ.getD 10 : ℚ)⌉₊ ∧
    (propertiesPagination total pageQ limitQ).pages
        = (total + limitQ.getD 10 - 1) / limitQ.getD 10 ∧
    (total = 0 → (propertiesPagination total pageQ limitQ).pages = 0) ∧
    (propertiesPagination total pageQ limitQ).page = pageQ.getD 1 ∧
    (propertiesPagination total pageQ limitQ).total = total ∧
    adminUsersPagination total pageQ limitQ = propertiesPagination total pageQ limitQ := by
  have hpages : (propertiesPagination total pageQ limitQ).pages
      = ⌈(total : ℚ) / (limitQ.getD 10 : ℚ)⌉₊ := by
    simp only [propertiesPagination, mathCeil]
    exact Int.ceil_toNat _
  refine ⟨hpages, ?_, ?_, rfl, rfl, rfl⟩
  · rw [hpages]
    exact natCeil_natCast_div total (limitQ.getD 10) h
  · intro ht
    rw [hpages, ht]
    simp

/-- Witness for C5: 25 matching documents at the default limit of 10 give
3 pages; 0 documents give 0 pages. -/
theorem pagination_pages_eq_ceil_witness :
    (propertiesPagination 25 none none).pages
        = (25 + (none : Option Nat).getD 10 - 1) / (none : Option Nat).getD 10 ∧
    (propertiesPagination 0 (some 3) none).pages = 0 :=
  ⟨(pagination_pages_eq_ceil 25 none none (by decide)).2.1,
   (pagination_pages_eq_ceil 0 (some 3) none (by decide)).2.2.1 rfl⟩

/-- Claim C1, divergence of the code from the stated invariant:
`PUT /properties/:id` passes the whole request body to
`findByIdAndUpdate`, so a valid update request carrying `owner: 2`,
issued by the recorded owner (user 1, role `user`), succeeds with 200 and
leaves the stored `owner` equal to 2, no longer the id of the user who
created the property. -/
theorem put_overwrites_owner :
    (putProperty [c1Stored] ⟨1, "user"⟩ 1 c1Body).1 = 200 ∧
    (putProperty [c1Stored] ⟨1, "user"⟩ 1 c1Body).2.map Property.owner = [2] := by
  decide

/-- Claim C2: the stored `owner` of a created property equals the
authenticated creating user's id regardless of any `owner` value supplied
in the request body: overriding the body's `owner` field changes nothing
about the stored owner, and every document the creation route stores has
`owner = actor.id`. -/
theorem created_owner_is_creator (a : Actor) (newId now : Nat) (b : Body) (ov : Option Nat) :
    ((createProperty a newId { b with owner := ov } now).2.map Property.owner
      = (createProperty a newId b now).2.map Property.owner) ∧
    (∀ doc, (createProperty a newId b now).2 = some doc → doc.owner = a.id) := by
  constructor
  · rfl
  · intro doc h
    by_cases hv : propertyValidation b = []
    · by_cases hs : (b.status.getD "pending") ∈ statusEnum
      · simp [createProperty, hv, buildCreatedDoc, hs] at h
        rw [← h]
      · simp [createProperty, hv, buildCreatedDoc, hs] at h
    · simp [createProperty, hv] at h

/-- Witness for C2 at user 5 and `validBody`, with a body-supplied
`owner: 99` on one of the two requests. -/
theorem created_owner_is_creator_witness :
    ((createProperty ⟨5, "user"⟩ 1 { validBody with owner := some 99 } 0).2.map Property.owner
      = (createProperty ⟨5, "user"⟩ 1 validBody 0).2.map Property.owner) ∧
    c2Doc.owner = 5 :=
  ⟨(created_owner_is_creator ⟨5, "user"⟩ 1 0 validBody (some 99)).1,
   (created_owner_is_creator ⟨5, "user"⟩ 1 0 validBody (some 99)).2 c2Doc (by decide)⟩

/-- Claim C3: an authenticated actor who is neither the recorded owner nor
an admin gets 403 from both `PUT /properties/:id` and
`DELETE /properties/:id` with the stored collection unchanged, and the
ownership guards of the two handlers are the same predicate, namely the
negation of `canMutate(actor, property) = actor.id == owner OR role == admin`. -/
theorem nonowner_nonadmin_gets_403 (db : List Property) (actor : Actor) (pid : Nat)
    (b : Body) (p : Property)
    (hv : propertyValidation b = [])
    (hf : db.find? (fun q => q.id == pid) = some p)
    (hcm : specCanMutate actor p = false) :
    putProperty db actor pid b = (403, db) ∧
    deleteProperty db actor pid = (403, db) ∧
    (∀ (a2 : Actor) (q : Property),
      updateOwnershipBlocks a2 q = deleteOwnershipBlocks a2 q ∧
      updateOwnershipBlocks a2 q = !(specCanMutate a2 q)) := by
  simp only [specCanMutate, Bool.or_eq_false_iff, beq_eq_false_iff_ne] at hcm
  have hblock : updateOwnershipBlocks actor p = true := by
    simp only [updateOwnershipBlocks, Bool.and_eq_true, bne_iff_ne]
    exact ⟨Ne.symm hcm.1, hcm.2⟩
  refine ⟨?_, ?_, ?_⟩
  · simp [putProperty, hv, hf, hblock]
  · have hblock2 : deleteOwnershipBlocks actor p = true := hblock
    simp [deleteProperty, hf, hblock2]
  · intro a2 q
    refine ⟨rfl, ?_⟩
    simp only [updateOwnershipBlocks, specCanMutate, Bool.not_or, bne]
    rw [Bool.beq_comm]

/-- Witness for C3: actor 2 (role `user`) is rejected on the property
owned by user 1. -/
theorem nonowner_nonadmin_gets_403_witness :
    putProperty [c1Stored] ⟨2, "user"⟩ 1 c1Body = (403, [c1Stored]) ∧
    deleteProperty [c1Stored] ⟨2, "user"⟩ 1 = (403, [c1Stored]) :=
  ⟨(nonowner_nonadmin_gets_403 [c1Stored] ⟨2, "user"⟩ 1 c1Body c1Stored
      (by decide) (by decide) (by decide)).1,
   (nonowner_nonadmin_gets_403 [c1Stored] ⟨2, "user"⟩ 1 c1Body c1Stored
      (by decide) (by decide) (by decide)).2.1⟩

/-- Counterexample to claim C8 as stated: a creation request that passes
validation (all required fields present, numeric price) but carries
`status: "active"` is accepted with 201, and the created property's
`status` is `"active"`, not `"pending"` — the body spread into
`Property.create` overrides the schema default. -/
theorem create_valid_body_status_not_pending :
    propertyValidation c8Body = [] ∧
    (createProperty ⟨7, "user"⟩ 1 c8Body 0).1 = 201 ∧
    (createProperty ⟨7, "user"⟩ 1 c8Body 0).2.map Property.status = some "active" ∧
    ¬ ((createProperty ⟨7, "user"⟩ 1 c8Body 0).2.map Property.status = some "pending") := by
  decide

/-- Claim C8 as amended: for every creation request that passes validation
and whose body does not supply a `status`, the response is 201 and the
created property's `status` is `"pending"` (the schema default). -/
theorem create_valid_no_status_gives_201_pending (a : Actor) (newId now : Nat) (b : Body)
    (hv : propertyValidation b = []) (hs : b.status = none) :
    (createProperty a newId b now).1 = 201 ∧
    (createProperty a newId b now).2.map Property.status = some "pending" := by
  have hin : ("pending" : String) ∈ statusEnum := by decide
  simp [createProperty, hv, buildCreatedDoc, hs, hin]

/-- Witness for the amended C8 at user 5 and `validBody`. -/
theorem create_valid_no_status_gives_201_pending_witness :
    (createProperty ⟨5, "user"⟩ 1 validBody 0).1 = 201 ∧
    (createProperty ⟨5, "user"⟩ 1 validBody 0).2.map Property.status = some "pending" :=
  create_valid_no_status_gives_201_pending ⟨5, "user"⟩ 1 0 validBody (by decide) rfl

lemma propertyValidation_ne_nil_of_missing (b : Body) (h : missingRequiredField b) :
    propertyValidation b ≠ [] := by
  intro hnil
  rcases h with h|h|h|h|h|h|h|h|h|h <;>
    simp [propertyValidation, reqStr, isInOpt, h] at hnil

/-- Claim C9: `PUT /properties/:id` applies the full creation validation
set, so every update request omitting any creation-required field is
rejected with 400 and leaves the collection unchanged, for every actor
(owner and admin included): partial updates are impossible through this
endpoint. -/
theorem put_requires_full_creation_fields (db : List Property) (a : Actor) (pid : Nat)
    (b : Body) (h : missingRequiredField b) :
    putProperty db a pid b = (400, db) := by
  have hne := propertyValidation_ne_nil_of_missing b h
  simp [putProperty, hne]

/-- Witness for C9: an admin's update that supplies everything but the
title is rejected with 400. -/
theorem put_requires_full_creation_fields_witness :
    putProperty [c1Stored] ⟨9, "admin"⟩ 1 { c1Body with title := none } = (400, [c1Stored]) :=
  put_requires_full_creation_fields [c1Stored] ⟨9, "admin"⟩ 1
    { c1Body with title := none } (Or.inl rfl)

/-- Claim C6: the dashboard's `totalInquiries` equals the sum over all
properties of the length of each property's inquiries list, and is 0
when no property has any inquiry. -/
theorem dashboard_totalInquiries_eq_sum (props : List Property) :
    dashboardTotalInquiries props = (props.map (fun p => p.inquiries.length)).sum ∧
    ((∀ p ∈ props, p.inquiries = []) → dashboardTotalInquiries props = 0) := by
  have hlen : (unwindInquiries props).length
      = (props.map (fun p => p.inquiries.length)).sum := by
    unfold unwindInquiries
    rw [List.flatMap, List.length_flatten, List.map_map]
    have hfun : (List.length ∘ fun p : Property => p.inquiries.map (fun i => (p, i)))
        = fun p : Property => p.inquiries.length := by
      funext p
      simp
    rw [hfun]
  have heq : dashboardTotalInquiries props
      = (props.map (fun p => p.inquiries.length)).sum := by
    rw [← hlen]
    unfold dashboardTotalInquiries totalInquiriesAggregate
    by_cases h : (unwindInquiries props).length = 0
    · simp [h]
    · simp [h]
  refine ⟨heq, ?_⟩
  intro hall
  rw [heq]
  apply List.sum_eq_zero
  intro x hx
  obtain ⟨p, hp, hpe⟩ := List.mem_map.mp hx
  rw [← hpe, hall p hp]
  rfl

/-- Witness for C6: with no property at all there are no inquiries and the
dashboard reports 0. -/
theorem dashboard_totalInquiries_eq_sum_witness :
    dashboardTotalInquiries [] = 0 :=
  (dashboard_totalInquiries_eq_sum []).2 (by simp)

/-- Claim C7: adding an already-favorited property fails with 400 and the
favorites list gains no duplicate entry (its multiset of entries is
unchanged); removing a property that is not a favorite fails with 400 and
leaves the list unchanged. -/
theorem favorites_duplicate_add_and_absent_remove_rejected
    (props : List Property) (u : UserDoc) (pid : Nat) :
    ((props.find? (fun p => p.id == pid)).isSome → pid ∈ u.favorites →
      addFavorite props u pid = (400, u) ∧
      (addFavorite props u pid).2.favorites.count pid = u.favorites.count pid) ∧
    (pid ∉ u.favorites → removeFavorite u pid = (400, u)) := by
  constructor
  · intro hp hc
    obtain ⟨q, hq⟩ := Option.isSome_iff_exists.mp hp
    have h400 : addFavorite props u pid = (400, u) := by
      simp [addFavorite, hq, hc]
    exact ⟨h400, by rw [h400]⟩
  · intro hc
    simp [removeFavorite, hc]

/-- Witness for C7: user 3 already has property 1 in favorites, so adding
it again and removing the absent property 2 both fail with 400. -/
theorem favorites_duplicate_add_and_absent_remove_rejected_witness :
    addFavorite [c1Stored] ⟨3, [1]⟩ 1 = (400, ⟨3, [1]⟩) ∧
    removeFavorite ⟨3, [1]⟩ 2 = (400, ⟨3, [1]⟩) :=
  ⟨((favorites_duplicate_add_and_absent_remove_rejected [c1Stored] ⟨3, [1]⟩ 1).1
      (by decide) (by decide)).1,
   (favorites_duplicate_add_and_absent_remove_rejected [c1Stored] ⟨3, [1]⟩ 2).2
      (by decide)⟩

lemma mem_insertByCreatedAtDesc {x y : Property × Inquiry}
    {l : List (Property × Inquiry)} (h : x ∈ insertByCreatedAtDesc y l) :
    x = y ∨ x ∈ l := by
  induction l with
  | nil => simpa [insertByCreatedAtDesc] using h
  | cons z zs ih =>
    unfold insertByCreatedAtDesc at h
    by_cases hc : z.2.createdAt ≤ y.2.createdAt
    · rw [if_pos hc] at h
      rcases List.mem_cons.mp h with h1 | h2
      · exact Or.inl h1
      · exact Or.inr h2
    · rw [if_neg hc] at h
      rcases List.mem_cons.mp h with h1 | h2
      · exact Or.inr (h1 ▸ List.mem_cons_self z zs)
      · rcases ih h2 with h3 | h4
        · exact Or.inl h3
        · exact Or.inr (List.mem_cons_of_mem z h4)

lemma mem_sortByCreatedAtDesc {x : Property × Inquiry} :
    ∀ {l : List (Property × Inquiry)}, x ∈ sortByCreatedAtDesc l → x ∈ l := by
  intro l
  induction l with
  | nil => simp [sortByCreatedAtDesc]
  | cons y ys ih =>
    intro h
    unfold sortByCreatedAtDesc at h
    rcases mem_insertByCreatedAtDesc h with h1 | h2
    · exact h1 ▸ List.mem_cons_self y ys
    · exact List.mem_cons_of_mem y (ih h2)

/-- Claim C10: the `recentInquiries` feed holds at most 5 entries; every
entry comes from an inquiry of a stored property whose submitting user
exists in the users collection; and because the top 5 are selected by
timestamp before the user join and unresolvable entries are then silently
dropped, a concrete collection with 6 inquiries (5 of them resolvable)
yields only 4 feed entries. -/
theorem recentInquiries_join_after_top5 (users : List UserRec) (props : List Property) :
    (recentInquiries users props).length ≤ 5 ∧
    (∀ e ∈ recentInquiries users props,
      ∃ p ∈ props, ∃ i ∈ p.inquiries, ∃ u ∈ users,
        u.id = i.user ∧ e.message = i.message ∧ e.createdAt = i.createdAt ∧
        e.userName = u.name ∧ e.userEmail = u.email ∧
        e.propertyId = p.id ∧ e.title = p.title) ∧
    (unwindInquiries c10Props).length = 6 ∧
    (recentInquiries c10Users c10Props).length = 4 := by
  refine ⟨?_, ?_, by decide, by decide⟩
  · unfold recentInquiries
    calc (((sortByCreatedAtDesc (unwindInquiries props)).take 5).filterMap
            (joinInquiryUser users)).length
        ≤ ((sortByCreatedAtDesc (unwindInquiries props)).take 5).length :=
          List.length_filterMap_le _ _
      _ ≤ 5 := by
          rw [List.length_take]
          exact Nat.min_le_left _ _
  · intro e he
    unfold recentInquiries at he
    obtain ⟨pe, hpe, hjoin⟩ := List.mem_filterMap.mp he
    have hmem : pe ∈ sortByCreatedAtDesc (unwindInquiries props) :=
      List.mem_of_mem_take hpe
    have hmem2 : pe ∈ unwindInquiries props := mem_sortByCreatedAtDesc hmem
    obtain ⟨p, hp, hpin⟩ := List.mem_flatMap.mp hmem2
    obtain ⟨i, hi, hpair⟩ := List.mem_map.mp hpin
    subst hpair
    unfold joinInquiryUser at hjoin
    cases hu : users.find? (fun u => u.id == (p, i).2.user) with
    | none => rw [hu] at hjoin; cases hjoin
    | some u =>
      rw [hu] at hjoin
      have humem : u ∈ users := List.mem_of_find?_eq_some hu
      have hbeq := (List.find?_eq_some.mp hu).1
      have huid2 : u.id = i.user := eq_of_beq hbeq
      simp only [Option.some.injEq] at hjoin
      subst hjoin
      exact ⟨p, hp, i, hi, u, humem, huid2, rfl, rfl, rfl, rfl, rfl, rfl⟩

/-- Witness for C10: the timestamp-50 entry of the example feed traces back
to a stored inquiry by the existing user Alice. -/
theorem recentInquiries_join_after_top5_witness :
    ∃ p ∈ c10Props, ∃ i ∈ p.inquiries, ∃ u ∈ c10Users,
      u.id = i.user ∧ c10Entry.message = i.message ∧ c10Entry.createdAt = i.createdAt ∧
      c10Entry.userName = u.name ∧ c10Entry.userEmail = u.email ∧
      c10Entry.propertyId = p.id ∧ c10Entry.title = p.title :=
  (recentInquiries_join_after_top5 c10Users c10Props).2.1 c10Entry (by decide)
